import Mathlib

/-!
Shallow embedding of the quickwit Discord event bot, verified against its
natural-language specification.  The embedding covers:

* `src/quickwit/utils.py` — the emoji resolver `get_emoji_by_name` and its
  static `EMOJIS` table;
* `src/quickwit/views/discord_message.py` — the roster renderer
  (`RegistrationMessage.__str__`, `EventMessage.header_message`,
  `EventMessage.body_message`, `EventMessage._split_registrations_by_status`);
* `src/quickwit/cogs/ui.py` — the pending-selection cache and the interaction
  callbacks (`_ensure_existing_registration`, `_status_callback`,
  `_job_callback`, `_join_callback`) and the message-edit listener
  `on_event_altered`;
* `src/quickwit/cogs/scheduled_events.py` — the channel-reference encoding in
  the native scheduled-event location field and its substring parsing.

Machine integers are modelled as `Nat`/`Int` (Python integers are unbounded),
timestamps as whole seconds (every datetime this program constructs is parsed
from a whole-minute format), and Python strings as Lean `String` (or
`List Char` where induction over characters is needed).  Stateful handlers are
modelled as pure functions from an explicit environment/state to a new state
plus an ordered list of emitted external effects.
-/

namespace Quickwit

/-- The static name-to-glyph table from `src/quickwit/utils.py` (`EMOJIS`),
verbatim. -/
def EMOJIS : List (String × String) := [
  ("Tank", "<:Tank:1361715148275978281>"),
  ("Healer", "<:Healer:1361714958634713200>"),
  ("DPS", "<:DPS:1361714957619564737>"),
  ("CampfireEvent", "<:Campfire:1361719739092828160>"),
  ("FashionShow", "<:FashionShow:1361719741852422174>"),
  ("Judge", "<:Judge:1361719743437996193>"),
  ("Speaker", "<:Speaker:1361719746659356892>"),
  ("Crowd", "<:Crowd:1361720304933539904>"),
  ("Model", "<:Model:1361720306678366370>"),
  ("Duration", "<:Duration:1361714964750143719>"),
  ("FinalFantasyXIV", "<:FF14:1361715995215138837>"),
  ("Event", "<:Event:1361722436982407218>"),
  ("Attending", "<:Attending:1361714961918853240>"),
  ("Organiser", "<:Organiser:1361714967279177748>"),
  ("People", "<:People:1361714963483197500>"),
  ("Start", "<:Start:1361714968822546583>"),
  ("Tentative", "<:Tentative:1361714954537013391>"),
  ("Late", "<:Late:1361723397637411036>"),
  ("Bench", "<:Bench:1361714956445286450>"),
  ("Allrounder", "<:Allrounder:1361714960648114347>"),
  ("Pictomancer", "<:Pictomancer:1264644682646814883>"),
  ("BlueMage", "<:BlueMage:1264644552975974551>"),
  ("Samurai", "<:Samurai:1264645159795298497>"),
  ("Reaper", "<:Reaper:1264645141373915220>"),
  ("Ninja", "<:Ninja:1264645180099657769>"),
  ("Monk", "<:Monk:1264645224160956492>"),
  ("Machinist", "<:Machinist:1264645265713926206>"),
  ("Dragoon", "<:Dragoon:1264645202195255296>"),
  ("Dancer", "<:Dancer:1264645244469772369>"),
  ("Summoner", "<:Summoner:1264645116279394416>"),
  ("RedMage", "<:RedMage:1264644745666236536>"),
  ("BlackMage", "<:BlackMage:1301689997300076606>"),
  ("Bard", "<:Bard:1264645295564783666>"),
  ("WhiteMage", "<:WhiteMage:1264644527935852635>"),
  ("Scholar", "<:Scholar:1264644505965953126>"),
  ("Sage", "<:Sage:1264644450542424085>"),
  ("Astrologian", "<:Astrologian:1264644473116426291>"),
  ("Warrior", "<:Warrior:1264644632541659219>"),
  ("Paladin", "<:Paladin:1264644652061954218>"),
  ("GunBreaker", "<:Gunbreaker:1264644584131268668>"),
  ("DarkKnight", "<:DarkKnight:1264644608688914585>"),
  ("Viper", "<:Viper:1264644722937561221>")]

/-- The fixed placeholder glyph returned by `get_emoji_by_name` when no table
entry matches (the literal two-character string on line 97 of
`src/quickwit/utils.py`). -/
def DEFAULT_EMOJI : String := "â“"

/-- Python `str.lower()` on a single character, for the ASCII range (every
name this program compares is ASCII).  Defined structurally so that concrete
lookups reduce in the kernel. -/
def charLower (c : Char) : Char :=
  if c.toNat ≥ 65 ∧ c.toNat ≤ 90 then Char.ofNat (c.toNat + 32) else c

/-- Python `str.lower()`, character by character. -/
def lowerStr (s : String) : String := ⟨s.data.map charLower⟩

/-- Python `name.replace(\x7b space \x7d, empty)`: remove every space
character. -/
def stripSpaces (s : String) : String := ⟨s.data.filter (fun c => c ≠ ' ')⟩

/-- The normalisation `get_emoji_by_name` applies to its input name:
`name.replace(...).lower()`. -/
def canonName (s : String) : String := lowerStr (stripSpaces s)

/-- Translation of `get_emoji_by_name` from `src/quickwit/utils.py` lines 84-97: scan the
static `EMOJIS` table in order, comparing each entry name lowered against the
space-stripped, lowered input; return the first matching glyph, else the
placeholder.  (The Python function also receives a `Sequence[discord.Emoji]`
argument which it never uses; it is dropped here.) -/
def get_emoji_by_name (name : String) : String :=
  match EMOJIS.find? (fun e => lowerStr e.1 == canonName name) with
  | some e => e.2
  | none => DEFAULT_EMOJI

/-- Modelled from the spec: `models.py` is not under `src/`.  The attendance
status enum, in declaration order ATTENDING, BENCH, TENTATIVE, LATE (spec
section 3: ordered, this order is the display sort order). -/
inductive Status
  | ATTENDING
  | BENCH
  | TENTATIVE
  | LATE
deriving DecidableEq, Repr

/-- Modelled from the spec: the string value of each status member, which is
both the rendered label and the emoji-table lookup name (the `EMOJIS` table
carries entries Attending, Bench, Tentative, Late). -/
def Status.value : Status → String
  | .ATTENDING => "Attending"
  | .BENCH => "Bench"
  | .TENTATIVE => "Tentative"
  | .LATE => "Late"

/-- Iteration order of `for status in Status` in Python: declaration order. -/
def statusList : List Status := [.ATTENDING, .BENCH, .TENTATIVE, .LATE]

/-- Position of a status in the declaration order, used to state the display
sort order. -/
def Status.idx : Status → Nat
  | .ATTENDING => 0
  | .BENCH => 1
  | .TENTATIVE => 2
  | .LATE => 3

/-- Modelled from the spec: a job/role choice; only its string value (label
and emoji-table lookup name) is observable to the code under `src/`. -/
structure JobType where
  value : String
deriving DecidableEq, Repr

/-- Modelled from the spec: a committed registration — user id, status,
optional job (spec section 3). -/
structure Registration where
  user_id : Nat
  status : Status
  job : Option JobType
deriving DecidableEq, Repr

/-- Modelled from the spec: an Event record (spec section 3) with the fields
the code under `src/` reads.  `utc_start`/`utc_end` are epoch seconds (every
datetime the program builds comes from a whole-minute parse format);
`registrations` is the read view the renderer consumes. -/
structure Event where
  channel_id : Nat
  guild_id : Nat
  organiser_id : Nat
  name : String
  description : String
  event_type : String
  utc_start : Int
  utc_end : Int
  scheduled_event_id : Option Nat
  registrations : List Registration
deriving DecidableEq, Repr

/-- The 12 spaces of source-level indentation captured by the backslash line
continuations inside the f-string literals of
`src/quickwit/views/discord_message.py` lines 62 and 74. -/
def spaces12 : String := "            "

/-- The 16 spaces of indentation captured by the line continuation on line 22
of `src/quickwit/views/discord_message.py`. -/
def spaces16 : String := "                "

/-- Translation of `RegistrationMessage.__str__` from
`src/quickwit/views/discord_message.py` lines 15-23.  With a job set the
Python f-string contains a backslash line continuation, so one space plus the
16 spaces of the following line's indentation separate the status label from
the user mention. -/
def registrationLine (r : Registration) : String :=
  let status_emoji := get_emoji_by_name r.status.value
  match r.job with
  | some j =>
    let job_emoji := get_emoji_by_name j.value
    status_emoji ++ job_emoji ++ " " ++ r.status.value ++ " " ++ spaces16 ++
      "<@" ++ toString r.user_id ++ ">"
  | none =>
    status_emoji ++ " " ++ r.status.value ++ " <@" ++ toString r.user_id ++ ">"

/-- Translation of `EventMessage._split_registrations_by_status` (lines 85-94): the group of
registrations carrying a given status, in input order. -/
def splitRegistrationsByStatus (regs : List Registration) (s : Status) :
    List Registration :=
  regs.filter (fun r => decide (r.status = s))

/-- Translation of `EventMessage.header_message` (line 41). -/
def headerMessage (e : Event) : String :=
  "# " ++ get_emoji_by_name e.event_type ++ " " ++ e.name

/-- Duration of the event in minutes, exactly:
`(utc_end - utc_start).total_seconds() / 60`.  On the whole-second instants
this program constructs, Python float division agrees exactly with rational
division for the comparison against 60 and for whole-minute reprs. -/
def durationMinutes (e : Event) : ℚ := ((e.utc_end - e.utc_start : ℤ) : ℚ) / 60

/-- Python f-string rendering of the float `duration_minutes`, taking the
duration in whole seconds.  For a whole number of minutes (the only durations
constructible from the supported whole-minute datetime formats) Python prints
`N.0`; a non-integer duration is rendered here as an exact fraction over 60,
a float-repr representation difference no claim depends on. -/
def minutesRepr (secs : Int) : String :=
  if secs % 60 = 0 then toString (secs / 60) ++ ".0"
  else toString secs ++ "/60"

/-- The text appended for a non-default duration
(`discord_message.py` line 70): a tab, the Duration emoji, the literal minute
count and the word minutes. -/
def durationSegment (e : Event) : String :=
  "\t" ++ get_emoji_by_name "Duration" ++ " " ++
    minutesRepr (e.utc_end - e.utc_start) ++ " minutes"

/-- The registration list in display order: the concatenation of the status
groups in enum declaration order, each group keeping input order — exactly
what iterating `split_registrations.values()` produces. -/
def sortedRegs (regs : List Registration) : List Registration :=
  statusList.flatMap (fun s => splitRegistrationsByStatus regs s)

/-- Source expression `len(split[ATTENDING]) + len(split[BENCH])` (lines 48-49). -/
def guaranteedAttendees (regs : List Registration) : Nat :=
  (splitRegistrationsByStatus regs .ATTENDING).length +
    (splitRegistrationsByStatus regs .BENCH).length

/-- Source expression `guaranteed + len(split[TENTATIVE]) + len(split[LATE])` (lines 50-52). -/
def maximumAttendees (regs : List Registration) : Nat :=
  guaranteedAttendees regs +
    (splitRegistrationsByStatus regs .TENTATIVE).length +
    (splitRegistrationsByStatus regs .LATE).length

/-- The part of the body message up to and including the organiser mention
(`discord_message.py` lines 60-62; the Start emoji is resolved twice in the
source, once for the start line and once, mistakenly, for the organiser
line). -/
def bodyIntro (e : Event) (event_role_id : Nat) : String :=
  "<@&" ++ toString event_role_id ++ ">\n" ++
    get_emoji_by_name "Start" ++ " <t:" ++ toString e.utc_start ++ ":F>\n" ++
    get_emoji_by_name "Start" ++ " " ++ spaces12 ++
    "<@" ++ toString e.organiser_id ++ ">"

/-- The description block and attendee-count line
(`discord_message.py` lines 73-74). -/
def bodyCounts (e : Event) : String :=
  "\n\n" ++ e.description ++ "\n\n" ++
    get_emoji_by_name "People" ++ " " ++ spaces12 ++
    toString (guaranteedAttendees e.registrations) ++ " - " ++
    toString (maximumAttendees e.registrations) ++ " Attendees:\n"

/-- The nested registration loop of `body_message` (lines 76-78), as a fold
accumulating onto the message built so far. -/
def regLinesFold (regs : List Registration) (acc : String) : String :=
  regs.foldl (fun a r => a ++ "\n" ++ registrationLine r) acc

/-- Translation of `EventMessage.body_message` (`discord_message.py` lines 43-80), assembled
in source order: role mention, start line, organiser line, conditional
duration segment, description, attendee counts, then one line per
registration grouped by status.  The source guard is
`duration_minutes != 60` on the float duration; on whole-second instants that
comparison holds exactly when the duration in seconds differs from 3600
(`durationMinutes_ne_60` below proves the equivalence with the rational
translation), and the integer form keeps the definition kernel-computable. -/
def bodyMessage (e : Event) (event_role_id : Nat) : String :=
  let message := bodyIntro e event_role_id
  let message :=
    if e.utc_end - e.utc_start ≠ 3600 then message ++ durationSegment e
    else message
  let message := message ++ bodyCounts e
  statusList.foldl
    (fun acc s => regLinesFold (splitRegistrationsByStatus e.registrations s) acc)
    message

/-- Whether the pattern is an initial segment of the haystack (over character
lists, so that concrete searches reduce in the kernel). -/
def startsWithL : List Char → List Char → Bool
  | _, [] => true
  | [], _ :: _ => false
  | c :: cs, p :: ps => c = p && startsWithL cs ps

/-- Whether the pattern occurs contiguously anywhere in the haystack. -/
def containsL (hay pat : List Char) : Bool :=
  match hay with
  | [] => startsWithL [] pat
  | _ :: rest => startsWithL hay pat || containsL rest pat

/-- Whether the string `pat` occurs contiguously in the string `s`. -/
def strOccurs (pat s : String) : Bool := containsL s.data pat.data

/-! ## Pending Selection Cache and interaction callbacks (`src/quickwit/cogs/ui.py`) -/

/-- The in-progress (status, job) pair, `RegistrationData` in `ui.py`. -/
def RegistrationData : Type := Option Status × Option JobType

/-- The nested dictionary `self.registration_data : dict[int, dict[int,
RegistrationData]]`, modelled as a partial map user id → (partial map
channel id → pending pair). -/
def Cache : Type := Nat → Option (Nat → Option RegistrationData)

/-- The empty cache: no user has any pending selection. -/
def Cache.empty : Cache := fun _ => none

/-- The observable pending tuple of a (user, channel) pair: `None` when either
dictionary level is missing. -/
def Cache.lookup (cache : Cache) (user_id channel_id : Nat) :
    Option RegistrationData :=
  match cache user_id with
  | none => none
  | some inner => inner channel_id

/-- Translation of `UI._ensure_existing_registration` (`ui.py` lines 85-91): create the
per-user inner dictionary if absent, then the (None, None) tuple for the
channel if absent, and return the tuple.  Returns the possibly-extended cache
together with the tuple read. -/
def ensureExistingRegistration (cache : Cache) (user_id channel_id : Nat) :
    Cache × RegistrationData :=
  let cache1 : Cache :=
    match cache user_id with
    | none => fun u => if u = user_id then some (fun _ => none) else cache u
    | some _ => cache
  let inner : Nat → Option RegistrationData :=
    match cache1 user_id with
    | none => fun _ => none
    | some inner => inner
  match inner channel_id with
  | none =>
    let inner1 : Nat → Option RegistrationData :=
      fun c => if c = channel_id then some (none, none) else inner c
    (fun u => if u = user_id then some inner1 else cache1 u, (none, none))
  | some rd => (cache1, rd)

/-- Write the pending tuple of one (user, channel) slot:
`self.registration_data[user_id][channel_id] = rd` executed after
`_ensure_existing_registration` guaranteed the outer entry exists. -/
def Cache.write (cache : Cache) (user_id channel_id : Nat)
    (rd : RegistrationData) : Cache :=
  fun u =>
    if u = user_id then
      match cache user_id with
      | none => some (fun c => if c = channel_id then some rd else none)
      | some inner => some (fun c => if c = channel_id then some rd else inner c)
    else cache u

/-- Translation of `UI._status_callback` (`ui.py` lines 71-76): ensure the tuple exists, then
overwrite its status slot, keeping the job slot read from the ensured
tuple. -/
def statusCallback (cache : Cache) (user_id channel_id : Nat) (status : Status) :
    Cache :=
  let (cache1, registration) := ensureExistingRegistration cache user_id channel_id
  cache1.write user_id channel_id (some status, registration.2)

/-- Translation of `UI._job_callback` (`ui.py` lines 78-83): ensure the tuple exists, then
overwrite its job slot, keeping the status slot read from the ensured
tuple. -/
def jobCallback (cache : Cache) (user_id channel_id : Nat) (job : JobType) :
    Cache :=
  let (cache1, registration) := ensureExistingRegistration cache user_id channel_id
  cache1.write user_id channel_id (registration.1, some job)

/-! ## Registration Store (external collaborator) -/

/-- Modelled from the spec: the Registration Store state visible to the code
under `src/` — per channel, the list of committed registrations in insertion
order (`storage.py` is not under `src/`). -/
def Store : Type := Nat → List Registration

/-- Modelled from the spec: `Storage.register(channel_id, registration)` —
a new commit overwrites any prior registration for that user on that channel
(spec section 3 uniqueness invariant), appending the new record. -/
def Store.register (store : Store) (channel_id : Nat) (r : Registration) :
    Store :=
  fun c =>
    if c = channel_id then
      (store c).filter (fun r0 => decide (r0.user_id ≠ r.user_id)) ++ [r]
    else store c

/-- Modelled from the spec: `Storage.unregister(channel_id, user_id)` —
remove any registration of that user on that channel; a no-op when none
exists. -/
def Store.unregister (store : Store) (channel_id user_id : Nat) : Store :=
  fun c =>
    if c = channel_id then
      (store c).filter (fun r0 => decide (r0.user_id ≠ user_id))
    else store c

/-- Outcome of the join interaction surfaced to the requester. -/
inductive JoinOutcome
  | validationError
  | success (r : Registration)
deriving DecidableEq, Repr

/-- Translation of `UI._join_callback` (`ui.py` lines 45-65): read the pending tuple
(creating it unset if absent), fail with the ephemeral validation message when
the status slot is unset, otherwise build `Registration(user, status, job)`,
register it for the channel, and dispatch an event-altered notification.
Returns the outcome together with the updated cache, the updated store, and
whether the notification was dispatched. -/
def joinCallback (cache : Cache) (store : Store) (user_id channel_id : Nat) :
    JoinOutcome × Cache × Store × Bool :=
  let (cache1, registration) := ensureExistingRegistration cache user_id channel_id
  match registration.1 with
  | none => (.validationError, cache1, store, false)
  | some status =>
    let r : Registration := ⟨user_id, status, registration.2⟩
    (.success r, cache1, store.register channel_id r, true)

/-- Translation of `UI._leave_callback` (`ui.py` lines 67-69): unconditionally unregister the
user from the channel; the cache is untouched. -/
def leaveCallback (cache : Cache) (store : Store) (user_id channel_id : Nat) :
    Cache × Store :=
  (cache, store.unregister channel_id user_id)

/-! ## The message-edit listener `UI.on_event_altered` (`ui.py` lines 128-152) -/

/-- An external side effect issued by the message-edit listener, in issue
order.  Store and native-scheduled-event mutations are included in the type so
that their absence from a handler's output is a statement about the handler,
not about the vocabulary. -/
inductive Effect
  | editAttachments (message_id file_id : Nat)
  | editContent (message_id : Nat) (content : String)
  | storeRegister (channel_id : Nat) (r : Registration)
  | storeUnregister (channel_id user_id : Nat)
  | nativeEventEdit (scheduled_event_id : Nat)
deriving DecidableEq, Repr

/-- The external world as seen by one invocation of `UI.on_event_altered`:
the channel resolved from the event's channel id (with its message history
oldest-first, message ids abstract), the optional new file, and the guild
resolved from the event's guild id (carrying the event role id that
`get_event_role` returns). -/
structure AlteredEnv where
  channelHistory : Option (List Nat)
  file : Option Nat
  guild : Option Nat
  eventRole : Nat
deriving Repr

/-- Translation of `UI.on_event_altered` (`ui.py` lines 128-152) as the ordered list of
external effects it issues: abort on unresolved channel; read the first two
historical messages oldest-first (`history(limit=2, oldest_first=True)`) and
abort unless exactly two; edit the header attachments when a new file is
supplied; abort on unresolved guild; finally edit header and body contents to
the freshly rendered texts. -/
def uiOnEventAltered (env : AlteredEnv) (e : Event) : List Effect :=
  match env.channelHistory with
  | none => []
  | some history =>
    let messages := history.take 2
    if messages.length ≠ 2 then []
    else
      let header := messages.headD 0
      let body := (messages.drop 1).headD 0
      let effects :=
        match env.file with
        | some f => [Effect.editAttachments header f]
        | none => []
      match env.guild with
      | none => effects
      | some _ =>
        effects ++
          [Effect.editContent header (headerMessage e),
           Effect.editContent body (bodyMessage e env.eventRole)]

/-! ## Channel-reference encoding (`src/quickwit/cogs/scheduled_events.py`) -/

/-- Decimal digit character for a single digit. -/
def digitChar10 (n : Nat) : Char := Char.ofNat (48 + n)

/-- Python `str` of a nonnegative integer: its decimal digits,
most-significant first. -/
def natDigits (n : Nat) : List Char :=
  if _ : n < 10 then [digitChar10 n]
  else natDigits (n / 10) ++ [digitChar10 (n % 10)]
decreasing_by exact Nat.div_lt_self (by omega) (by omega)

/-- The location string built by `ScheduledEvents.on_event_created`
(`scheduled_events.py` line 84): the f-string with angle bracket, hash mark,
channel id, closing angle bracket, as a character list. -/
def mkLocation (channel_id : Nat) : List Char :=
  '<' :: '#' :: (natDigits channel_id ++ ['>'])

/-- Python `str.split` on a one-character separator: the chunks between
separator occurrences, empty chunks kept. -/
def splitOnChar (sep : Char) : List Char → List (List Char)
  | [] => [[]]
  | c :: cs =>
    let rest := splitOnChar sep cs
    if c = sep then [] :: rest
    else
      match rest with
      | [] => [[c]]
      | h :: t => (c :: h) :: t

/-- Python `int` of a decimal digit string. -/
def parseInt10 (l : List Char) : Nat :=
  l.foldl (fun a c => a * 10 + (c.toNat - 48)) 0

/-- The parsing in `on_scheduled_event_user_add` / `user_remove`
(`scheduled_events.py` lines 32 and 54):
`int(location.split(hash)[1].split(gt)[0])`. -/
def parseChannelId (location : List Char) : Nat :=
  parseInt10 (((splitOnChar '>' ((splitOnChar '#' location).getD 1 [])).getD 0 []))

/-! ## Derived views of the renderer used to state the claims -/

/-- One rendered line per registration, in list order, each preceded by a
newline — the text the registration loop of `body_message` appends. -/
def linesText (regs : List Registration) : String :=
  match regs with
  | [] => ""
  | r :: rest => "\n" ++ registrationLine r ++ linesText rest

/-- Everything `body_message` emits before the registration lines. -/
def bodyHeadText (e : Event) (event_role_id : Nat) : String :=
  bodyIntro e event_role_id ++
    (if e.utc_end - e.utc_start ≠ 3600 then durationSegment e else "") ++
    bodyCounts e

/-- The empty Registration Store: no channel has registrations. -/
def Store.empty : Store := fun _ => []

/-! ## Concrete sample data for witnesses and the spec's worked examples -/

/-- One registration of each status, in store insertion order — the spec's
attendee-count example. -/
def sampleRegs : List Registration :=
  [⟨1, .ATTENDING, none⟩, ⟨2, .BENCH, none⟩, ⟨3, .TENTATIVE, none⟩,
   ⟨4, .LATE, none⟩]

/-- A concrete event with a 90-minute duration and the sample
registrations. -/
def sampleEvent : Event :=
  ⟨10, 20, 30, "Raid Night", "Weekly raid", "FinalFantasyXIV", 50400, 55800,
    none, sampleRegs⟩

/-- The spec's duration example: start 14:00 UTC, end 15:00 UTC (epoch
seconds within a day), a 60-minute event. -/
def sixtyEvent : Event :=
  ⟨10, 20, 30, "Raid Night", "Weekly raid", "FinalFantasyXIV", 50400, 54000,
    none, []⟩

/-- The spec's duration example: start 14:00 UTC, end 15:30 UTC, a 90-minute
event. -/
def ninetyEvent : Event :=
  ⟨10, 20, 30, "Raid Night", "Weekly raid", "FinalFantasyXIV", 50400, 55800,
    none, []⟩

/-!
## Supporting lemmas

Shared structural facts about the renderer, the cache and the location
encoding, used by the claim theorems below.
-/

/-- String concatenation is associative. -/
theorem str_append_assoc (a b c : String) : a ++ b ++ c = a ++ (b ++ c) := by
  simp [String.ext_iff, String.data_append]

/-- The registration fold appends the rendered lines after the accumulator. -/
theorem regLinesFold_eq (regs : List Registration) (acc : String) :
    regLinesFold regs acc = acc ++ linesText regs := by
  induction regs generalizing acc with
  | nil => simp [regLinesFold, linesText]
  | cons r rest ih =>
    simp only [regLinesFold, List.foldl_cons, linesText] at *
    rw [ih]
    simp [String.ext_iff, String.data_append]

/-- Rendering lines of an appended list is the appended rendering. -/
theorem linesText_append (xs ys : List Registration) :
    linesText (xs ++ ys) = linesText xs ++ linesText ys := by
  induction xs with
  | nil => simp [linesText]
  | cons r rest ih =>
    simp only [List.cons_append, linesText]
    rw [show rest.append ys = rest ++ ys from rfl, ih]
    simp [String.ext_iff, String.data_append]

/-- The body message decomposes into its head text followed by one rendered
line per registration, grouped by status in declaration order. -/
theorem bodyMessage_eq (e : Event) (role : Nat) :
    bodyMessage e role =
      bodyHeadText e role ++ linesText (sortedRegs e.registrations) := by
  unfold bodyMessage bodyHeadText sortedRegs statusList
  simp only [List.flatMap_cons, List.flatMap_nil, List.foldl_cons,
    List.foldl_nil, List.append_nil]
  rw [regLinesFold_eq, regLinesFold_eq, regLinesFold_eq, regLinesFold_eq]
  rw [linesText_append, linesText_append, linesText_append]
  by_cases h : e.utc_end - e.utc_start ≠ 3600 <;>
    simp [h, str_append_assoc]

/-- Counting a value in a filtered list is zero when the value fails the
filter. -/
theorem count_filter_eq_zero {α} [DecidableEq α] {p : α → Bool} {a : α}
    (h : ¬ p a = true) (l : List α) : List.count a (l.filter p) = 0 := by
  rw [List.count_eq_zero]
  intro hmem
  exact h (List.of_mem_filter hmem)

/-- The display order is a permutation of the input registrations: exactly one
line per registration. -/
theorem sortedRegs_perm (regs : List Registration) :
    (sortedRegs regs).Perm regs := by
  rw [List.perm_iff_count]
  intro a
  unfold sortedRegs statusList splitRegistrationsByStatus
  simp only [List.flatMap_cons, List.flatMap_nil, List.append_nil,
    List.count_append]
  rcases a with ⟨u, s, j⟩
  cases s <;>
    simp [List.count_filter, count_filter_eq_zero]

/-- Every status group is internally sorted (trivially, all elements share the
status). -/
theorem pairwise_filter_status (regs : List Registration) (s : Status) :
    (splitRegistrationsByStatus regs s).Pairwise
      (fun a b => a.status.idx ≤ b.status.idx) := by
  apply List.pairwise_of_forall_mem_list
  intro a ha b hb
  unfold splitRegistrationsByStatus at ha hb
  have ha2 := List.of_mem_filter ha
  have hb2 := List.of_mem_filter hb
  simp only [decide_eq_true_eq] at ha2 hb2
  rw [ha2, hb2]

/-- Membership in a status group determines the status. -/
theorem mem_filter_status {regs : List Registration} {s : Status}
    {a : Registration} (h : a ∈ splitRegistrationsByStatus regs s) :
    a.status = s := by
  have := List.of_mem_filter h
  simpa using this

/-- The display order is sorted by status declaration order. -/
theorem sortedRegs_pairwise (regs : List Registration) :
    (sortedRegs regs).Pairwise (fun a b => a.status.idx ≤ b.status.idx) := by
  unfold sortedRegs statusList
  simp only [List.flatMap_cons, List.flatMap_nil, List.append_nil]
  rw [List.pairwise_append, List.pairwise_append, List.pairwise_append]
  refine ⟨pairwise_filter_status _ _,
    ⟨pairwise_filter_status _ _,
      ⟨pairwise_filter_status _ _, pairwise_filter_status _ _, ?_⟩, ?_⟩, ?_⟩
  · intro a ha b hb
    rw [mem_filter_status ha, mem_filter_status hb]
    decide
  · intro a ha b hb
    rcases List.mem_append.mp hb with hb | hb <;>
      (rw [mem_filter_status ha, mem_filter_status hb]; decide)
  · intro a ha b hb
    rcases List.mem_append.mp hb with hb | hb
    · rw [mem_filter_status ha, mem_filter_status hb]; decide
    · rcases List.mem_append.mp hb with hb | hb <;>
        (rw [mem_filter_status ha, mem_filter_status hb]; decide)

/-- Filtering a status group by its own status keeps it unchanged. -/
theorem filter_split_same (regs : List Registration) (s : Status) :
    (splitRegistrationsByStatus regs s).filter
      (fun r => decide (r.status = s)) = splitRegistrationsByStatus regs s := by
  apply List.filter_eq_self.mpr
  intro a ha
  simp [mem_filter_status ha]

/-- Filtering a status group by a different status empties it. -/
theorem filter_split_other (regs : List Registration) {s t : Status}
    (h : s ≠ t) :
    (splitRegistrationsByStatus regs t).filter
      (fun r => decide (r.status = s)) = [] := by
  apply List.filter_eq_nil_iff.mpr
  intro a ha
  simp [mem_filter_status ha]
  exact fun he => h he.symm

/-- Stability: the s-status sublist of the display order is exactly the
s-status sublist of the input, in input order. -/
theorem sortedRegs_filter (regs : List Registration) (s : Status) :
    (sortedRegs regs).filter (fun r => decide (r.status = s)) =
      regs.filter (fun r => decide (r.status = s)) := by
  unfold sortedRegs statusList
  simp only [List.flatMap_cons, List.flatMap_nil, List.append_nil,
    List.filter_append]
  have hs := filter_split_same regs
  have ho := fun {s t : Status} (h : s ≠ t) => filter_split_other regs h
  cases s
  case ATTENDING =>
    rw [hs, ho (by decide), ho (by decide), ho (by decide)]
    simp [splitRegistrationsByStatus]
  case BENCH =>
    rw [hs, ho (by decide), ho (by decide), ho (by decide)]
    simp [splitRegistrationsByStatus]
  case TENTATIVE =>
    rw [hs, ho (by decide), ho (by decide), ho (by decide)]
    simp [splitRegistrationsByStatus]
  case LATE =>
    rw [hs, ho (by decide), ho (by decide), ho (by decide)]
    simp [splitRegistrationsByStatus]

/-- The float guard `duration_minutes != 60` from the source, translated to
exact rationals, coincides with the integer-seconds guard used in
`bodyMessage`. -/
theorem durationMinutes_ne_60 (e : Event) :
    (durationMinutes e ≠ (60 : ℚ)) ↔ e.utc_end - e.utc_start ≠ 3600 := by
  apply not_congr
  unfold durationMinutes
  rw [div_eq_iff (by norm_num : (60:ℚ) ≠ 0)]
  norm_cast

/-- A cache write changes exactly the written slot. -/
theorem write_lookup (cache : Cache) (u c : Nat) (rd : RegistrationData)
    (u2 c2 : Nat) :
    Cache.lookup (cache.write u c rd) u2 c2 =
      if u2 = u ∧ c2 = c then some rd else Cache.lookup cache u2 c2 := by
  unfold Cache.write Cache.lookup
  by_cases hu : u2 = u
  · subst hu
    cases hcu : cache u2 with
    | none =>
      simp only [if_pos rfl, hcu]
      by_cases hc : c2 = c <;> simp [hc]
    | some inner =>
      simp only [if_pos rfl, hcu]
      by_cases hc : c2 = c <;> simp [hc]
  · simp [hu]

/-- The tuple returned by `_ensure_existing_registration` is the looked-up
tuple, defaulting to (unset, unset). -/
theorem ensure_snd (cache : Cache) (u c : Nat) :
    (ensureExistingRegistration cache u c).2 =
      (Cache.lookup cache u c).getD (none, none) := by
  unfold ensureExistingRegistration Cache.lookup
  cases hcu : cache u with
  | none => simp
  | some inner =>
    simp only
    cases hic : inner c <;> simp [hcu, hic]

/-- The cache after `_ensure_existing_registration` holds the defaulted tuple
at the ensured slot and is unchanged elsewhere. -/
theorem ensure_lookup (cache : Cache) (u c u2 c2 : Nat) :
    Cache.lookup (ensureExistingRegistration cache u c).1 u2 c2 =
      if u2 = u ∧ c2 = c then
        some ((Cache.lookup cache u c).getD (none, none))
      else Cache.lookup cache u2 c2 := by
  unfold ensureExistingRegistration Cache.lookup
  cases hcu : cache u with
  | none =>
    simp only
    by_cases hu : u2 = u
    · subst hu
      by_cases hc : c2 = c <;> simp [hc, hcu]
    · simp [hu]
  | some inner =>
    simp only [hcu]
    cases hic : inner c with
    | none =>
      by_cases hu : u2 = u
      · subst hu
        by_cases hc : c2 = c <;> simp [hc, hcu, hic]
      · simp [hu, hcu, hic]
    | some rd =>
      by_cases hu : u2 = u
      · subst hu
        by_cases hc : c2 = c <;> simp [hc, hcu, hic]
      · simp [hu, hcu, hic]

/-- Full characterisation of the status callback on every slot. -/
theorem statusCallback_lookup (cache : Cache) (u c : Nat) (s : Status)
    (u2 c2 : Nat) :
    Cache.lookup (statusCallback cache u c s) u2 c2 =
      if u2 = u ∧ c2 = c then
        some (some s, ((Cache.lookup cache u c).getD (none, none)).2)
      else Cache.lookup cache u2 c2 := by
  unfold statusCallback
  rw [write_lookup, ensure_snd]
  by_cases h : u2 = u ∧ c2 = c
  · simp [h]
  · simp [h, ensure_lookup, if_neg h]

/-- Full characterisation of the job callback on every slot. -/
theorem jobCallback_lookup (cache : Cache) (u c : Nat) (j : JobType)
    (u2 c2 : Nat) :
    Cache.lookup (jobCallback cache u c j) u2 c2 =
      if u2 = u ∧ c2 = c then
        some (((Cache.lookup cache u c).getD (none, none)).1, some j)
      else Cache.lookup cache u2 c2 := by
  unfold jobCallback
  rw [write_lookup, ensure_snd]
  by_cases h : u2 = u ∧ c2 = c
  · simp [h]
  · simp [h, ensure_lookup, if_neg h]

/-- Decimal digit characters have code points between 48 and 57. -/
theorem digitChar10_toNat {d : Nat} (h : d < 10) :
    (digitChar10 d).toNat = 48 + d := by
  interval_cases d <;> decide

/-- Every character of a decimal rendering is a digit character. -/
theorem natDigits_isDigit (n : Nat) :
    ∀ c ∈ natDigits n, 48 ≤ c.toNat ∧ c.toNat ≤ 57 := by
  induction n using Nat.strong_induction_on with
  | _ n ih =>
    rw [natDigits]
    split
    · rename_i h
      intro c hc
      simp only [List.mem_singleton] at hc
      subst hc
      rw [digitChar10_toNat h]
      omega
    · rename_i h
      intro c hc
      rcases List.mem_append.mp hc with hc | hc
      · exact ih (n / 10) (Nat.div_lt_self (by omega) (by omega)) c hc
      · simp only [List.mem_singleton] at hc
        subst hc
        rw [digitChar10_toNat (Nat.mod_lt _ (by omega))]
        have := Nat.mod_lt n (y := 10) (by omega)
        omega

/-- Splitting a separator-free list yields the single chunk. -/
theorem splitOnChar_no_sep {sep : Char} {l : List Char}
    (h : ∀ c ∈ l, c ≠ sep) : splitOnChar sep l = [l] := by
  induction l with
  | nil => rfl
  | cons c cs ih =>
    have hc : c ≠ sep := h c (by simp)
    have ihr := ih (fun x hx => h x (by simp [hx]))
    unfold splitOnChar
    simp only [if_neg hc, ihr]

/-- Splitting a separator-free chunk followed by the separator peels off the
chunk. -/
theorem splitOnChar_append_sep {sep : Char} {l r : List Char}
    (h : ∀ c ∈ l, c ≠ sep) :
    splitOnChar sep (l ++ sep :: r) = l :: splitOnChar sep r := by
  induction l with
  | nil => simp [splitOnChar]
  | cons c cs ih =>
    have hc : c ≠ sep := h c (by simp)
    have ihr := ih (fun x hx => h x (by simp [hx]))
    rw [List.cons_append]
    unfold splitOnChar
    simp only [if_neg hc, ihr]
    rw [← splitOnChar.eq_def]

/-- Folding the decimal parser over a rendering extends the accumulator. -/
theorem parseInt10_natDigits_aux (n : Nat) :
    ∀ a : Nat, (natDigits n).foldl (fun a c => a * 10 + (c.toNat - 48)) a =
      a * 10 ^ (natDigits n).length + n := by
  induction n using Nat.strong_induction_on with
  | _ n ih =>
    intro a
    rw [natDigits]
    split
    · rename_i h
      simp [digitChar10_toNat h]
    · rename_i h
      rw [List.foldl_append]
      rw [ih (n / 10) (Nat.div_lt_self (by omega) (by omega))]
      simp only [List.foldl_cons, List.foldl_nil, List.length_append,
        List.length_singleton]
      rw [digitChar10_toNat (Nat.mod_lt _ (by omega))]
      have hdm := Nat.div_add_mod n 10
      ring_nf
      omega

/-- Parsing the decimal rendering of a number recovers the number. -/
theorem parseInt10_natDigits (n : Nat) : parseInt10 (natDigits n) = n := by
  unfold parseInt10
  rw [parseInt10_natDigits_aux n 0]
  simp

/-!
## Claim theorems
-/

/-- C1: for every (user, channel) whose pending selection tuple has an unset
status (including an absent tuple, which reads as unset), `_join_callback`
returns the validation error surfaced to the requester, leaves the
Registration Store unchanged, and dispatches no event-altered
notification. -/
theorem join_unset_status_validation_error (cache : Cache) (store : Store)
    (u c : Nat)
    (h : ((Cache.lookup cache u c).getD (none, none)).1 = none) :
    (joinCallback cache store u c).1 = JoinOutcome.validationError ∧
    (joinCallback cache store u c).2.2.1 = store ∧
    (joinCallback cache store u c).2.2.2 = false := by
  have h2 : (ensureExistingRegistration cache u c).2.1 = none := by
    rw [ensure_snd]; exact h
  unfold joinCallback
  rcases hp : ensureExistingRegistration cache u c with ⟨cache1, registration⟩
  rw [hp] at h2
  simp only at h2
  simp [hp, h2]

/-- Witness for C1 at the empty cache and empty store. -/
theorem join_unset_status_validation_error_witness :
    (joinCallback Cache.empty Store.empty 1 2).1 =
      JoinOutcome.validationError ∧
    (joinCallback Cache.empty Store.empty 1 2).2.2.1 = Store.empty ∧
    (joinCallback Cache.empty Store.empty 1 2).2.2.2 = false :=
  join_unset_status_validation_error Cache.empty Store.empty 1 2 rfl

/-- C2: the rendered body lists exactly one line per registration (the display
order is a permutation of the input), grouped by status in enum declaration
order ATTENDING, BENCH, TENTATIVE, LATE (the display order is sorted by
status index), with ties within a group keeping store insertion order (the
per-status sublist equals the input filtered in order), and each line is the
status emoji, then the job emoji exactly when the job is set, then the status
label and the user mention. -/
theorem body_roster_grouped_sorted_lines (e : Event) (role : Nat) :
    bodyMessage e role =
      bodyHeadText e role ++ linesText (sortedRegs e.registrations) ∧
    (sortedRegs e.registrations).Perm e.registrations ∧
    (sortedRegs e.registrations).Pairwise
      (fun a b => a.status.idx ≤ b.status.idx) ∧
    (∀ s : Status,
      (sortedRegs e.registrations).filter (fun r => decide (r.status = s)) =
        splitRegistrationsByStatus e.registrations s) ∧
    (∀ r : Registration,
      (r.job = none →
        registrationLine r =
          get_emoji_by_name r.status.value ++ " " ++ r.status.value ++
            " <@" ++ toString r.user_id ++ ">") ∧
      (∀ j : JobType, r.job = some j →
        registrationLine r =
          get_emoji_by_name r.status.value ++ get_emoji_by_name j.value ++
            " " ++ r.status.value ++ " " ++ spaces16 ++
            "<@" ++ toString r.user_id ++ ">")) := by
  refine ⟨bodyMessage_eq e role, sortedRegs_perm _, sortedRegs_pairwise _,
    fun s => sortedRegs_filter _ s, fun r => ⟨fun hj => ?_, fun j hj => ?_⟩⟩
  · simp [registrationLine, hj]
  · simp [registrationLine, hj]

/-- Witness for C2: concrete rendered lines for a jobless and a job-carrying
registration. -/
theorem body_roster_grouped_sorted_lines_witness :
    registrationLine ⟨1, Status.ATTENDING, none⟩ =
      get_emoji_by_name (Status.ATTENDING).value ++ " " ++
        (Status.ATTENDING).value ++ " <@" ++ toString (1 : Nat) ++ ">" ∧
    registrationLine ⟨2, Status.BENCH, some ⟨"Tank"⟩⟩ =
      get_emoji_by_name (Status.BENCH).value ++
        get_emoji_by_name (JobType.mk "Tank").value ++ " " ++
        (Status.BENCH).value ++ " " ++ spaces16 ++
        "<@" ++ toString (2 : Nat) ++ ">" :=
  ⟨((body_roster_grouped_sorted_lines sampleEvent 1).2.2.2.2
      ⟨1, Status.ATTENDING, none⟩).1 rfl,
   ((body_roster_grouped_sorted_lines sampleEvent 1).2.2.2.2
      ⟨2, Status.BENCH, some ⟨"Tank"⟩⟩).2 ⟨"Tank"⟩ rfl⟩

/-- C3: the attendee count line of the rendered body shows
guaranteed = count(ATTENDING) + count(BENCH) and
maximum = guaranteed + count(TENTATIVE) + count(LATE); for one registration
of each status, guaranteed = 2 and maximum = 4. -/
theorem attendee_count_line_correct (e : Event) (role : Nat) :
    (∃ before after : String,
      bodyMessage e role =
        before ++ (toString (guaranteedAttendees e.registrations) ++ " - " ++
          toString (maximumAttendees e.registrations) ++ " Attendees:\n") ++
          after) ∧
    guaranteedAttendees e.registrations =
      e.registrations.countP (fun r => decide (r.status = Status.ATTENDING)) +
        e.registrations.countP (fun r => decide (r.status = Status.BENCH)) ∧
    maximumAttendees e.registrations =
      guaranteedAttendees e.registrations +
        e.registrations.countP (fun r => decide (r.status = Status.TENTATIVE)) +
        e.registrations.countP (fun r => decide (r.status = Status.LATE)) ∧
    guaranteedAttendees sampleRegs = 2 ∧ maximumAttendees sampleRegs = 4 := by
  refine ⟨⟨bodyIntro e role ++
      (if e.utc_end - e.utc_start ≠ 3600 then durationSegment e else "") ++
      ("\n\n" ++ e.description ++ "\n\n" ++ get_emoji_by_name "People" ++
        " " ++ spaces12),
    linesText (sortedRegs e.registrations), ?_⟩, ?_, ?_, by decide, by decide⟩
  · rw [bodyMessage_eq]
    unfold bodyHeadText bodyCounts
    simp [String.ext_iff, String.data_append]
  · simp [guaranteedAttendees, splitRegistrationsByStatus,
      List.countP_eq_length_filter]
  · simp [maximumAttendees, splitRegistrationsByStatus,
      List.countP_eq_length_filter]

/-- C4: the rendered body contains the duration segment exactly when the
duration in minutes differs from 60, the segment shows the literal minute
count, the 60-minute example body never mentions minutes, and the 90-minute
example body shows the 90.0 minutes text. -/
theorem duration_segment_iff_nondefault (e : Event) (role : Nat) :
    bodyMessage e role =
      bodyIntro e role ++
        (if durationMinutes e ≠ (60 : ℚ) then durationSegment e else "") ++
        bodyCounts e ++ linesText (sortedRegs e.registrations) ∧
    durationSegment e =
      "\t" ++ get_emoji_by_name "Duration" ++ " " ++
        minutesRepr (e.utc_end - e.utc_start) ++ " minutes" ∧
    strOccurs "minutes" (bodyMessage sixtyEvent 1) = false ∧
    strOccurs "90.0 minutes" (bodyMessage ninetyEvent 1) = true := by
  refine ⟨?_, rfl, by decide, by decide⟩
  rw [bodyMessage_eq]
  unfold bodyHeadText
  simp only [durationMinutes_ne_60]

/-- C5: roster rendering is a pure, deterministic function of the event and
its registrations — equal inputs give byte-identical header and body text. -/
theorem rendering_deterministic (e1 e2 : Event) (r1 r2 : Nat)
    (he : e1 = e2) (hr : r1 = r2) :
    headerMessage e1 = headerMessage e2 ∧
    bodyMessage e1 r1 = bodyMessage e2 r2 := by
  subst he
  subst hr
  exact ⟨rfl, rfl⟩

/-- Witness for C5 at a concrete event. -/
theorem rendering_deterministic_witness :
    headerMessage sampleEvent = headerMessage sampleEvent ∧
    bodyMessage sampleEvent 1 = bodyMessage sampleEvent 1 :=
  rendering_deterministic sampleEvent sampleEvent 1 1 rfl rfl

/-- C6: the emoji resolver is total, depends only on the case- and
space-normalised name, resolves dps, DPS and padded DPS alike, and returns
the placeholder glyph for the unknown name Foo. -/
theorem emoji_resolver_insensitive_total :
    (∀ n1 n2 : String, canonName n1 = canonName n2 →
      get_emoji_by_name n1 = get_emoji_by_name n2) ∧
    get_emoji_by_name "dps" = get_emoji_by_name "DPS" ∧
    get_emoji_by_name "  DPS  " = get_emoji_by_name "DPS" ∧
    get_emoji_by_name "Foo" = DEFAULT_EMOJI := by
  refine ⟨fun n1 n2 h => ?_, by decide, by decide, by decide⟩
  unfold get_emoji_by_name
  rw [h]

/-- Witness for C6 applying the normalisation-invariance part at a concrete
mixed-case name. -/
theorem emoji_resolver_insensitive_total_witness :
    canonName "DpS" = canonName "dps" ∧
    get_emoji_by_name "DpS" = get_emoji_by_name "dps" :=
  ⟨by decide, emoji_resolver_insensitive_total.1 "DpS" "dps" (by decide)⟩

/-- C7: the status callback lazily initialises the pending tuple to
(unset, unset) if absent and overwrites only the status slot, keeping the job
slot; the job callback is symmetric; neither touches any other
(user, channel) entry. -/
theorem pending_cache_frame_update (cache : Cache) (u c : Nat) (s : Status)
    (j : JobType) :
    (Cache.lookup (statusCallback cache u c s) u c =
        some (some s, ((Cache.lookup cache u c).getD (none, none)).2) ∧
      ∀ u2 c2 : Nat, ¬(u2 = u ∧ c2 = c) →
        Cache.lookup (statusCallback cache u c s) u2 c2 =
          Cache.lookup cache u2 c2) ∧
    (Cache.lookup (jobCallback cache u c j) u c =
        some (((Cache.lookup cache u c).getD (none, none)).1, some j) ∧
      ∀ u2 c2 : Nat, ¬(u2 = u ∧ c2 = c) →
        Cache.lookup (jobCallback cache u c j) u2 c2 =
          Cache.lookup cache u2 c2) := by
  refine ⟨⟨?_, fun u2 c2 h => ?_⟩, ⟨?_, fun u2 c2 h => ?_⟩⟩
  · rw [statusCallback_lookup]; simp
  · rw [statusCallback_lookup, if_neg h]
  · rw [jobCallback_lookup]; simp
  · rw [jobCallback_lookup, if_neg h]

/-- Witness for C7 at the empty cache. -/
theorem pending_cache_frame_update_witness :
    Cache.lookup (statusCallback Cache.empty 1 2 Status.ATTENDING) 1 2 =
      some (some Status.ATTENDING,
        ((Cache.lookup Cache.empty 1 2).getD (none, none)).2) ∧
    Cache.lookup (statusCallback Cache.empty 1 2 Status.ATTENDING) 3 2 =
      Cache.lookup Cache.empty 3 2 ∧
    Cache.lookup (jobCallback Cache.empty 1 2 ⟨"Tank"⟩) 1 2 =
      some (((Cache.lookup Cache.empty 1 2).getD (none, none)).1,
        some (JobType.mk "Tank")) :=
  ⟨(pending_cache_frame_update Cache.empty 1 2 Status.ATTENDING ⟨"Tank"⟩).1.1,
   (pending_cache_frame_update Cache.empty 1 2 Status.ATTENDING ⟨"Tank"⟩).1.2
     3 2 (by decide),
   (pending_cache_frame_update Cache.empty 1 2 Status.ATTENDING ⟨"Tank"⟩).2.1⟩

/-- C8: when the channel cannot be resolved or its history does not yield
exactly two messages oldest-first, the message-edit handler issues no effect
at all — no message edit, no Store mutation, no native-event edit. -/
theorem event_altered_short_history_noop (env : AlteredEnv) (e : Event)
    (h : match env.channelHistory with
         | none => True
         | some history => (history.take 2).length ≠ 2) :
    uiOnEventAltered env e = [] := by
  unfold uiOnEventAltered
  cases hh : env.channelHistory with
  | none => rfl
  | some history =>
    rw [hh] at h
    simp only at h
    simp [h]
    intro hlen
    exfalso
    apply h
    simp [List.length_take]
    omega

/-- Witness for C8 on a channel holding a single message. -/
theorem event_altered_short_history_noop_witness :
    uiOnEventAltered ⟨some [5], some 9, some 7, 1⟩ sampleEvent = [] :=
  event_altered_short_history_noop ⟨some [5], some 9, some 7, 1⟩ sampleEvent
    (by decide)

/-- C9: the channel-reference encoding round-trips — parsing the location
string built at event creation recovers exactly the channel id. -/
theorem location_encoding_roundtrip (n : Nat) :
    parseChannelId (mkLocation n) = n := by
  have hdig := natDigits_isDigit n
  have hnh : ∀ c ∈ natDigits n ++ ['>'], c ≠ '#' := by
    intro c hc
    rcases List.mem_append.mp hc with hc | hc
    · have := hdig c hc
      intro he
      subst he
      simp at this
    · simp only [List.mem_singleton] at hc
      subst hc
      decide
  have hng : ∀ c ∈ natDigits n, c ≠ '>' := by
    intro c hc
    have := hdig c hc
    intro he
    subst he
    simp at this
  unfold parseChannelId mkLocation
  rw [show ('<' :: '#' :: (natDigits n ++ ['>'])) =
    ['<'] ++ '#' :: (natDigits n ++ ['>']) from rfl]
  rw [splitOnChar_append_sep (by intro c hc; simp at hc; subst hc; decide)]
  rw [splitOnChar_no_sep hnh]
  simp only [List.getD_cons_succ, List.getD_cons_zero]
  rw [show (natDigits n ++ ['>']) = natDigits n ++ '>' :: [] from rfl]
  rw [splitOnChar_append_sep hng]
  simp only [List.getD_cons_zero]
  exact parseInt10_natDigits n

/-- C10: with exactly two messages in the channel and a new file supplied,
when guild resolution fails the handler has already replaced the header
attachments and edits neither message content: its effect list is exactly the
one attachment edit. -/
theorem event_altered_attachment_before_guild (env : AlteredEnv) (e : Event)
    (m0 m1 : Nat) (rest : List Nat) (f : Nat)
    (hh : env.channelHistory = some (m0 :: m1 :: rest))
    (hf : env.file = some f) (hg : env.guild = none) :
    uiOnEventAltered env e = [Effect.editAttachments m0 f] := by
  unfold uiOnEventAltered
  rw [hh]
  simp [hf, hg, List.take]

/-- Witness for C10 on a concrete two-message channel. -/
theorem event_altered_attachment_before_guild_witness :
    uiOnEventAltered ⟨some [5, 6], some 9, none, 1⟩ sampleEvent =
      [Effect.editAttachments 5 9] :=
  event_altered_attachment_before_guild ⟨some [5, 6], some 9, none, 1⟩
    sampleEvent 5 6 [] 9 rfl rfl rfl

end Quickwit
